import Mathlib

/-!
# Verification of the movie key-value service (read-through cache-aside layer)

Shallow embedding of `src/main.rs`: an axum HTTP service with two handlers,
`get_movie` (read-through fetch) and `add_movie` (store write), over a shared
`AppState` holding two independently-locked `HashMap<String, Movie>` containers
(`db`, the authoritative Store, and `cache`).

The handlers are sequential state transformers per request; we embed them as
pure functions on an explicit `AppState`.  The two `HashMap`s are modelled as
functions `String → Option Movie` (lookup is `HashMap::get`, and
`HashMap::insert` is pointwise update).  HTTP status codes that the handlers
actually produce are modelled by the inductive `StatusCode`.

Lock acquisition/release order inside each handler is sequential code, so we
additionally embed each handler's lock/access behaviour as an explicit event
trace (`Event`), read off the source line by line, and reason about which locks
are held at each point of the trace.
-/

namespace MovieService

/-- The `Movie` record of `src/main.rs` (lines 17–23).  `year` is a `u16` in the
source; no arithmetic is ever performed on it, so its values embed as `Nat`. -/
structure Movie where
  id : String
  name : String
  year : Nat
  was_good : Bool
deriving DecidableEq, Repr

/-- The shared `AppState` (lines 10–15): `db` is the authoritative store,
`cache` the read-through cache.  Each `HashMap<String, Movie>` is modelled
as a function `String → Option Movie`. -/
structure AppState where
  db : String → Option Movie
  cache : String → Option Movie

/-- The status codes the two handlers actually return:
`CREATED` (201) for a fresh insert, `ACCEPTED` (202) for an overwrite
(the spec's `Updated` outcome), `NOT_FOUND` (404) for a failed fetch. -/
inductive StatusCode where
  | created
  | accepted
  | notFound
deriving DecidableEq, Repr

/-- Point update at `k`: the model of `HashMap::insert`. -/
def mapInsert (m : String → Option Movie) (k : String) (v : Movie) :
    String → Option Movie :=
  fun x => if x = k then some v else m x

/-- The read handler `get_movie` (lines 25–49): check the cache first and
return the cached clone on a hit; otherwise read the db, and on a db hit
insert a clone into the cache and return the movie; otherwise 404.
Returns the handler's `Result<Json<Movie>, StatusCode>` together with the
post-state. -/
def get_movie (s : AppState) (movie_id : String) :
    Except StatusCode Movie × AppState :=
  match s.cache movie_id with
  | some res => (Except.ok res, s)
  | none =>
    match s.db movie_id with
    | some movie =>
        (Except.ok movie, { s with cache := mapInsert s.cache movie_id movie })
    | none => (Except.error StatusCode.notFound, s)

/-- The write handler `add_movie` (lines 51–58): insert the movie into the db
under `movie.id`; `HashMap::insert` returns the previous value, and the
handler answers `ACCEPTED` if one existed, else `CREATED`. -/
def add_movie (s : AppState) (movie : Movie) : StatusCode × AppState :=
  ((if (s.db movie.id).isSome then StatusCode.accepted else StatusCode.created),
   { s with db := mapInsert s.db movie.id movie })

/-- One client-visible operation of the core. -/
inductive Op where
  | fetchOp (id : String)
  | storeOp (m : Movie)
deriving DecidableEq, Repr

/-- The state transformation of one operation. -/
def applyOp (s : AppState) (op : Op) : AppState :=
  match op with
  | Op.fetchOp id => (get_movie s id).2
  | Op.storeOp m => (add_movie s m).2

/-- Sequential execution of a list of operations. -/
def run (s : AppState) (ops : List Op) : AppState :=
  ops.foldl applyOp s

/-- The process-start state (line 67–70): both maps empty. -/
def initState : AppState :=
  { db := fun _ => none, cache := fun _ => none }

/-!
## Lock / access traces

Each handler body is straight-line sequential code; we read its lock
acquisitions, releases, map reads and map writes off the source as an event
list.  Rust drops a lock guard at the end of its lexical scope (or at an
early `return`), which fixes the position of each unlock event.
-/

/-- Lock and container-access events inside one handler execution. -/
inductive Event where
  | lockCacheRead
  | unlockCacheRead
  | lockCacheWrite
  | unlockCacheWrite
  | lockDbRead
  | unlockDbRead
  | lockDbWrite
  | unlockDbWrite
  | cacheGet (id : String)
  | cacheInsert (id : String)
  | dbGet (id : String)
  | dbInsert (id : String)
deriving DecidableEq, Repr

/-- The event trace of `get_movie` on state `s`, read off lines 29–48:
the cache read guard (line 31) lives in the scope of lines 30–35 and is
dropped at the closing brace, or at the early `return` on a hit; the db read
guard (line 37) is bound to a plain `let` and is dropped only when the
function returns, so it is still held while the cache write guard
(lines 40–43) is acquired and released. -/
def getMovieTrace (s : AppState) (movie_id : String) : List Event :=
  match s.cache movie_id with
  | some _ =>
      [Event.lockCacheRead, Event.cacheGet movie_id, Event.unlockCacheRead]
  | none =>
    match s.db movie_id with
    | some _ =>
        [Event.lockCacheRead, Event.cacheGet movie_id, Event.unlockCacheRead,
         Event.lockDbRead, Event.dbGet movie_id,
         Event.lockCacheWrite, Event.cacheInsert movie_id,
         Event.unlockCacheWrite,
         Event.unlockDbRead]
    | none =>
        [Event.lockCacheRead, Event.cacheGet movie_id, Event.unlockCacheRead,
         Event.lockDbRead, Event.dbGet movie_id, Event.unlockDbRead]

/-- The event trace of `add_movie`, read off lines 51–58: the db write guard
spans the whole body; the cache is never touched. -/
def addMovieTrace (m : Movie) : List Event :=
  [Event.lockDbWrite, Event.dbInsert m.id, Event.unlockDbWrite]

/-- Lock-held state `(dbHeld, cacheHeld)` after one event. -/
def stepLocks : Bool × Bool → Event → Bool × Bool
  | (_, c), Event.lockDbRead => (true, c)
  | (_, c), Event.unlockDbRead => (false, c)
  | (_, c), Event.lockDbWrite => (true, c)
  | (_, c), Event.unlockDbWrite => (false, c)
  | (d, _), Event.lockCacheRead => (d, true)
  | (d, _), Event.unlockCacheRead => (d, false)
  | (d, _), Event.lockCacheWrite => (d, true)
  | (d, _), Event.unlockCacheWrite => (d, false)
  | dc, _ => dc

/-- The lock-held states reached at every point of a trace (starting with
no lock held). -/
def lockStates (t : List Event) : List (Bool × Bool) :=
  t.scanl stepLocks (false, false)

/-- Holds (as `true`) iff at no point of the trace a db lock and a cache lock
are held simultaneously. -/
def neverBothHeld (t : List Event) : Bool :=
  (lockStates t).all fun p => !(p.1 && p.2)

/-- Whether event `e` acquires a db lock. -/
def acquiresDb : Event → Bool
  | Event.lockDbRead => true
  | Event.lockDbWrite => true
  | _ => false

/-- Whether event `e` touches the cache lock at all. -/
def touchesCacheLock : Event → Bool
  | Event.lockCacheRead => true
  | Event.unlockCacheRead => true
  | Event.lockCacheWrite => true
  | Event.unlockCacheWrite => true
  | _ => false

/-- Holds (as `true`) iff no db lock is ever acquired while a cache lock is held: the
only nesting the trace allows is db-outside-cache.  Together with the writer
never touching the cache lock this yields a consistent global acquisition
order (db before cache), hence no lock-ordering cycle. -/
def dbNeverAcquiredUnderCache : List Event → Bool × Bool → Bool
  | [], _ => true
  | e :: t, dc =>
      (!(acquiresDb e && dc.2)) && dbNeverAcquiredUnderCache t (stepLocks dc e)

/-- Number of db lookups (`locked_db.get`) in a trace. -/
def dbGetCount (t : List Event) : Nat :=
  (t.filter fun e => match e with | Event.dbGet _ => true | _ => false).length

/-- Number of cache mutations (`locked_cache.insert`) in a trace. -/
def cacheInsertCount (t : List Event) : Nat :=
  (t.filter fun e =>
    match e with | Event.cacheInsert _ => true | _ => false).length

/-!
## The read protocol as the specification words it (for refinement)

`fetchSpec` is written from §4.2 of the specification's three numbered steps,
to be compared with `get_movie`, the embedding of the source.
-/

/-- Modelled from the spec, §4.2 read protocol, for refinement against
`get_movie`:
1. look up `id` in Cache; if present, return it (no Store access, no Cache
   mutation);
2. else look up `id` in Store; if absent, signal not-found;
3. else copy the Store value into Cache under `id`, then return the Store
   value. -/
def fetchSpec (s : AppState) (id : String) :
    Except StatusCode Movie × AppState :=
  match s.cache id with
  | some cached => (Except.ok cached, s)
  | none =>
    match s.db id with
    | none => (Except.error StatusCode.notFound, s)
    | some stored =>
        (Except.ok stored, { s with cache := mapInsert s.cache id stored })

/-!
## Helper lemmas
-/

theorem run_nil (s : AppState) : run s [] = s := rfl

theorem run_cons (s : AppState) (op : Op) (ops : List Op) :
    run s (op :: ops) = run (applyOp s op) ops := rfl

/-- A cache hit returns the cached value and leaves the state unchanged. -/
theorem get_movie_hit (s : AppState) (id : String) (m : Movie)
    (h : s.cache id = some m) : get_movie s id = (Except.ok m, s) := by
  simp [get_movie, h]

/-- The read handler never modifies the db. -/
theorem get_movie_db (s : AppState) (id : String) :
    ((get_movie s id).2).db = s.db := by
  unfold get_movie
  cases s.cache id <;> [skip; rfl]
  cases s.db id <;> rfl

/-- The write handler never modifies the cache. -/
theorem add_movie_cache (s : AppState) (m : Movie) :
    ((add_movie s m).2).cache = s.cache := rfl

/-- If a fetch answers `Ok r`, the post-state caches `r` under the fetched id. -/
theorem get_movie_ok_cache (s : AppState) (id : String) (r : Movie)
    (h : (get_movie s id).1 = Except.ok r) :
    ((get_movie s id).2).cache id = some r := by
  unfold get_movie at h ⊢
  cases hc : s.cache id with
  | some v => simp [hc] at h ⊢; exact h
  | none =>
    cases hd : s.db id with
    | some movie => simp [hc, hd, mapInsert] at h ⊢; exact h
    | none => simp [hc, hd] at h

/-- An existing cache entry survives any single operation unchanged. -/
theorem cache_stable_applyOp (s : AppState) (op : Op) (id : String) (m : Movie)
    (h : s.cache id = some m) : ((applyOp s op).cache) id = some m := by
  cases op with
  | storeOp m2 => exact h
  | fetchOp j =>
    show ((get_movie s j).2).cache id = some m
    cases hc : s.cache j with
    | some v => simp [get_movie, hc, h]
    | none =>
      cases hd : s.db j with
      | some movie =>
        have hne : id ≠ j := by
          intro he; rw [he] at h; rw [h] at hc; exact Option.noConfusion hc
        simp [get_movie, hc, hd, mapInsert, hne, h]
      | none => simp [get_movie, hc, hd, h]

/-- An existing cache entry survives any sequence of operations unchanged. -/
theorem cache_stable_run (s : AppState) (ops : List Op) (id : String) (m : Movie)
    (h : s.cache id = some m) : ((run s ops).cache) id = some m := by
  induction ops generalizing s with
  | nil => exact h
  | cons op ops ih => exact ih (applyOp s op) (cache_stable_applyOp s op id m h)

/-- A present db entry stays present across any single operation. -/
theorem db_isSome_applyOp (s : AppState) (op : Op) (id : String)
    (h : (s.db id).isSome = true) : ((applyOp s op).db id).isSome = true := by
  cases op with
  | fetchOp j => rw [show (applyOp s (Op.fetchOp j)).db = s.db from get_movie_db s j]; exact h
  | storeOp m2 =>
    show ((mapInsert s.db m2.id m2) id).isSome = true
    unfold mapInsert
    by_cases he : id = m2.id <;> simp [he, h]

/-- A present db entry stays present across any sequence of operations. -/
theorem db_isSome_run (s : AppState) (ops : List Op) (id : String)
    (h : (s.db id).isSome = true) : ((run s ops).db id).isSome = true := by
  induction ops generalizing s with
  | nil => exact h
  | cons op ops ih => exact ih (applyOp s op) (db_isSome_applyOp s op id h)

/-- An id absent from both containers stays absent from both across any single
operation, provided the operation does not store under that id. -/
theorem absent_applyOp (s : AppState) (op : Op) (id : String)
    (hop : ∀ m, op = Op.storeOp m → m.id ≠ id)
    (hdb : s.db id = none) (hc : s.cache id = none) :
    (applyOp s op).db id = none ∧ (applyOp s op).cache id = none := by
  cases op with
  | storeOp m2 =>
    have hne : ¬ id = m2.id := fun he => hop m2 rfl he.symm
    constructor
    · show (mapInsert s.db m2.id m2) id = none
      simp [mapInsert, hne, hdb]
    · exact hc
  | fetchOp j =>
    show (get_movie s j).2.db id = none ∧ (get_movie s j).2.cache id = none
    cases hcj : s.cache j with
    | some v => simp [get_movie, hcj, hdb, hc]
    | none =>
      cases hdj : s.db j with
      | none => simp [get_movie, hcj, hdj, hdb, hc]
      | some movie =>
        have hne : id ≠ j := by
          intro he; rw [he] at hdb; rw [hdb] at hdj; exact Option.noConfusion hdj
        simp [get_movie, hcj, hdj, mapInsert, hne, hdb, hc]

/-- An id absent from both containers stays absent from both across any
sequence of operations that never stores under it. -/
theorem absent_run (s : AppState) (ops : List Op) (id : String)
    (hops : ∀ m, Op.storeOp m ∈ ops → m.id ≠ id)
    (hdb : s.db id = none) (hc : s.cache id = none) :
    (run s ops).db id = none ∧ (run s ops).cache id = none := by
  induction ops generalizing s with
  | nil => exact ⟨hdb, hc⟩
  | cons op ops ih =>
    have hop : ∀ m, op = Op.storeOp m → m.id ≠ id := by
      intro m he; exact hops m (by rw [he]; exact List.mem_cons_self _ _)
    have h1 := absent_applyOp s op id hop hdb hc
    exact ih (applyOp s op) (fun m hm => hops m (List.mem_cons_of_mem _ hm)) h1.1 h1.2

/-- Invariant: every cached key is present in the db. -/
def cacheSubsetDb (s : AppState) : Prop :=
  ∀ id, ((s.cache id).isSome = true) → ((s.db id).isSome = true)

/-- Any single operation preserves the cache-subset-of-db invariant. -/
theorem cacheSubsetDb_applyOp (s : AppState) (op : Op)
    (h : cacheSubsetDb s) : cacheSubsetDb (applyOp s op) := by
  cases op with
  | storeOp m2 =>
    intro id hcid
    exact db_isSome_applyOp s (Op.storeOp m2) id (h id hcid)
  | fetchOp j =>
    cases hcj : s.cache j with
    | some v =>
      have hs : applyOp s (Op.fetchOp j) = s := by simp [applyOp, get_movie, hcj]
      rw [hs]; exact h
    | none =>
      cases hdj : s.db j with
      | none =>
        have hs : applyOp s (Op.fetchOp j) = s := by
          simp [applyOp, get_movie, hcj, hdj]
        rw [hs]; exact h
      | some movie =>
        have hs : applyOp s (Op.fetchOp j)
            = { s with cache := mapInsert s.cache j movie } := by
          simp [applyOp, get_movie, hcj, hdj]
        rw [hs]
        intro id hcid
        show (s.db id).isSome = true
        by_cases he : id = j
        · rw [he, hdj]; rfl
        · exact h id (by simpa [mapInsert, he] using hcid)

/-!
## Concrete records used by the witnesses (the spec's §8 scenario)
-/

/-- The record of the spec's §8 scenario. -/
def movieA : Movie := { id := "1", name := "Dune", year := 2021, was_good := true }

/-- The overwriting record of the spec's §8 scenario: same id, different payload. -/
def movieB : Movie := { id := "1", name := "Dune Part Two", year := 2024, was_good := true }

/-!
## Claims
-/

/-- C1: once `fetch(id)` has returned a `Record` successfully, every subsequent
`fetch(id)` returns that same `Record` value, whatever operations (including
`store` with the same id and a different payload) happen in between: writes
never invalidate or update the cached entry. -/
theorem fetch_stale_cache (s : AppState) (id : String) (r : Movie)
    (h : (get_movie s id).1 = Except.ok r) (ops : List Op) :
    (get_movie (run (get_movie s id).2 ops) id).1 = Except.ok r := by
  have hc := get_movie_ok_cache s id r h
  have hc2 := cache_stable_run _ ops id r hc
  rw [get_movie_hit _ id r hc2]

/-- Witness for C1, on the spec's §8 scenario: store Dune, fetch it once,
overwrite it with Dune Part Two, fetch again — the original record comes back. -/
theorem fetch_stale_cache_witness :
    (get_movie (add_movie initState movieA).2 "1").1 = Except.ok movieA ∧
    (get_movie (run (get_movie (add_movie initState movieA).2 "1").2
        [Op.storeOp movieB]) "1").1 = Except.ok movieA :=
  ⟨rfl, fetch_stale_cache (add_movie initState movieA).2 "1" movieA rfl
      [Op.storeOp movieB]⟩

/-- C3: `fetch` follows exactly the three-step read-through protocol: it agrees
with `fetchSpec` (the protocol as the spec words it) on both result and
post-state; it performs at most one Store lookup; and on a cache hit it
performs no Store lookup, no cache mutation, and leaves the state unchanged. -/
theorem fetch_read_through (s : AppState) (id : String) :
    get_movie s id = fetchSpec s id ∧
    dbGetCount (getMovieTrace s id) ≤ 1 ∧
    (match s.cache id with
     | some _ =>
         dbGetCount (getMovieTrace s id) = 0 ∧
         cacheInsertCount (getMovieTrace s id) = 0 ∧
         (get_movie s id).2 = s
     | none => True) := by
  cases hc : s.cache id with
  | some v =>
    refine ⟨by simp [get_movie, fetchSpec, hc], ?_, ?_, ?_, ?_⟩
    · have ht : getMovieTrace s id
          = [Event.lockCacheRead, Event.cacheGet id, Event.unlockCacheRead] := by
        simp [getMovieTrace, hc]
      rw [ht]; exact Nat.zero_le 1
    · have ht : getMovieTrace s id
          = [Event.lockCacheRead, Event.cacheGet id, Event.unlockCacheRead] := by
        simp [getMovieTrace, hc]
      rw [ht]; rfl
    · have ht : getMovieTrace s id
          = [Event.lockCacheRead, Event.cacheGet id, Event.unlockCacheRead] := by
        simp [getMovieTrace, hc]
      rw [ht]; rfl
    · simp [get_movie, hc]
  | none =>
    cases hd : s.db id with
    | some movie =>
      refine ⟨by simp [get_movie, fetchSpec, hc, hd], ?_, trivial⟩
      have ht : getMovieTrace s id
          = [Event.lockCacheRead, Event.cacheGet id, Event.unlockCacheRead,
             Event.lockDbRead, Event.dbGet id,
             Event.lockCacheWrite, Event.cacheInsert id,
             Event.unlockCacheWrite, Event.unlockDbRead] := by
        simp [getMovieTrace, hc, hd]
      rw [ht]; exact Nat.le_refl 1
    | none =>
      refine ⟨by simp [get_movie, fetchSpec, hc, hd], ?_, trivial⟩
      have ht : getMovieTrace s id
          = [Event.lockCacheRead, Event.cacheGet id, Event.unlockCacheRead,
             Event.lockDbRead, Event.dbGet id, Event.unlockDbRead] := by
        simp [getMovieTrace, hc, hd]
      rw [ht]; exact Nat.le_refl 1

/-- C4: `store` answers `CREATED` exactly when no entry for the id existed,
`ACCEPTED` (the `Updated` outcome) exactly when one did; and after a first
store of an id, any later store under the same id answers `ACCEPTED`,
whatever operations run in between and whatever the new payload is. -/
theorem store_created_then_updated (s : AppState) (m : Movie) :
    ((add_movie s m).1 = StatusCode.created ↔ s.db m.id = none) ∧
    ((add_movie s m).1 = StatusCode.accepted ↔ (s.db m.id).isSome = true) ∧
    ∀ ops (m2 : Movie), m2.id = m.id →
      (add_movie (run (add_movie s m).2 ops) m2).1 = StatusCode.accepted := by
  refine ⟨?_, ?_, ?_⟩
  · cases hd : s.db m.id <;> simp [add_movie, hd]
  · cases hd : s.db m.id <;> simp [add_movie, hd]
  · intro ops m2 hid
    have h1 : (((add_movie s m).2).db m.id).isSome = true := by
      show ((mapInsert s.db m.id m) m.id).isSome = true
      simp [mapInsert]
    have h2 := db_isSome_run ((add_movie s m).2) ops m.id h1
    show (if ((run (add_movie s m).2 ops).db m2.id).isSome
        then StatusCode.accepted else StatusCode.created) = StatusCode.accepted
    rw [hid, h2]; rfl

/-- Witness for C4: storing Dune into the empty state answers `CREATED`;
immediately re-storing Dune Part Two under the same id answers `ACCEPTED`. -/
theorem store_created_then_updated_witness :
    ((add_movie initState movieA).1 = StatusCode.created ↔
      initState.db movieA.id = none) ∧
    movieB.id = movieA.id ∧
    (add_movie (run (add_movie initState movieA).2 []) movieB).1
      = StatusCode.accepted :=
  ⟨(store_created_then_updated initState movieA).1, rfl,
   (store_created_then_updated initState movieA).2.2 [] movieB rfl⟩

/-- C5: storing a record whose id is in neither container answers `CREATED`,
and fetching that id right away (before any cache population for it) returns
the record unchanged. -/
theorem store_then_fetch_roundtrip (s : AppState) (r : Movie)
    (hdb : s.db r.id = none) (hc : s.cache r.id = none) :
    (add_movie s r).1 = StatusCode.created ∧
    (get_movie (add_movie s r).2 r.id).1 = Except.ok r := by
  constructor
  · simp [add_movie, hdb]
  · show (get_movie { s with db := mapInsert s.db r.id r } r.id).1 = Except.ok r
    simp [get_movie, hc, mapInsert]

/-- Witness for C5: the round-trip on Dune from the empty state. -/
theorem store_then_fetch_roundtrip_witness :
    initState.db movieA.id = none ∧ initState.cache movieA.id = none ∧
    ((add_movie initState movieA).1 = StatusCode.created ∧
     (get_movie (add_movie initState movieA).2 movieA.id).1 = Except.ok movieA) :=
  ⟨rfl, rfl, store_then_fetch_roundtrip initState movieA rfl rfl⟩

/-- C6: `store` mutates only the db entry for the stored id: the cache map is
untouched, the stored id now maps to the record, and every other db entry is
unchanged. -/
theorem store_frame (s : AppState) (m : Movie) :
    ((add_movie s m).2).cache = s.cache ∧
    ((add_movie s m).2).db m.id = some m ∧
    ∀ k, k ≠ m.id → ((add_movie s m).2).db k = s.db k := by
  refine ⟨rfl, ?_, ?_⟩
  · show (mapInsert s.db m.id m) m.id = some m
    simp [mapInsert]
  · intro k hk
    show (mapInsert s.db m.id m) k = s.db k
    simp [mapInsert, hk]

/-- Witness for C6: storing Dune leaves the cache and the unrelated key "2"
untouched. -/
theorem store_frame_witness :
    ("2" : String) ≠ movieA.id ∧
    (add_movie initState movieA).2.cache = initState.cache ∧
    (add_movie initState movieA).2.db movieA.id = some movieA ∧
    (add_movie initState movieA).2.db "2" = initState.db "2" :=
  ⟨by decide, (store_frame initState movieA).1,
   (store_frame initState movieA).2.1,
   (store_frame initState movieA).2.2 "2" (by decide)⟩

/-- C7: `fetch(id)` signals not-found exactly when `id` is absent from both
cache and db; not-found is the only error value a fetch can produce; a
not-found fetch leaves the state unchanged; and any id never stored (starting
from the empty process-start state) fetches as not-found. -/
theorem fetch_not_found (s : AppState) (id : String) :
    ((get_movie s id).1 = Except.error StatusCode.notFound ↔
      (s.cache id = none ∧ s.db id = none)) ∧
    (∀ e, (get_movie s id).1 = Except.error e → e = StatusCode.notFound) ∧
    (s.cache id = none → s.db id = none → (get_movie s id).2 = s) ∧
    (∀ ops, (∀ m, Op.storeOp m ∈ ops → m.id ≠ id) →
      (get_movie (run initState ops) id).1 = Except.error StatusCode.notFound) := by
  refine ⟨?_, ?_, ?_, ?_⟩
  · cases hc : s.cache id with
    | some v => simp [get_movie, hc]
    | none =>
      cases hd : s.db id with
      | some movie => simp [get_movie, hc, hd]
      | none => simp [get_movie, hc, hd]
  · intro e he
    cases hc : s.cache id with
    | some v => rw [get_movie_hit s id v hc] at he; exact Except.noConfusion he
    | none =>
      cases hd : s.db id with
      | some movie => simp [get_movie, hc, hd] at he
      | none =>
        simp [get_movie, hc, hd] at he
        exact he.symm
  · intro hc hd
    simp [get_movie, hc, hd]
  · intro ops hops
    have h := absent_run initState ops id hops rfl rfl
    simp [get_movie, h.1, h.2]

/-- Witness for C7: after storing only Dune (id "1"), fetching the never-stored
id "9" answers not-found, and a not-found fetch on the empty state is a no-op. -/
theorem fetch_not_found_witness :
    initState.cache "9" = none ∧ initState.db "9" = none ∧
    (get_movie initState "9").2 = initState ∧
    (get_movie (run initState [Op.storeOp movieA]) "9").1
      = Except.error StatusCode.notFound :=
  ⟨rfl, rfl,
   (fetch_not_found initState "9").2.2.1 rfl rfl,
   (fetch_not_found initState "9").2.2.2 [Op.storeOp movieA]
     (by intro m hm; simp at hm; rw [hm]; decide)⟩

/-- C8: in every reachable state the cached keys are a subset of the db keys:
the invariant holds at process start and is preserved by every sequence of
fetch and store operations. -/
theorem cache_subset_store (s : AppState) (ops : List Op) :
    cacheSubsetDb initState ∧
    (cacheSubsetDb s → cacheSubsetDb (run s ops)) := by
  constructor
  · intro id h
    simp [initState] at h
  · induction ops generalizing s with
    | nil => exact fun h => h
    | cons op ops ih =>
      exact fun h => ih (applyOp s op) (cacheSubsetDb_applyOp s op h)

/-- Witness for C8: the invariant holds after storing Dune and then fetching
it (the fetch populates the cache with key "1", which the db contains). -/
theorem cache_subset_store_witness :
    cacheSubsetDb (run initState [Op.storeOp movieA, Op.fetchOp "1"]) :=
  (cache_subset_store initState [Op.storeOp movieA, Op.fetchOp "1"]).2
    (fun id h => by simp [initState] at h)

/-- C9: once the cache holds a value for an id, no operation ever changes it:
any sequence of operations preserves the cached entry, a fetch of that id is a
pure cache hit that leaves the whole state unchanged, and a store never
touches the cache. -/
theorem cache_entry_immutable (s : AppState) (id : String) (m : Movie)
    (h : s.cache id = some m) :
    (∀ ops, ((run s ops).cache) id = some m) ∧
    get_movie s id = (Except.ok m, s) ∧
    ∀ m2, ((add_movie s m2).2).cache = s.cache :=
  ⟨fun ops => cache_stable_run s ops id m h,
   get_movie_hit s id m h,
   fun _ => rfl⟩

/-- Witness for C9: after Dune is stored and fetched once, its cached entry
survives an overwriting store of Dune Part Two, and a repeated fetch is a pure
hit. -/
theorem cache_entry_immutable_witness :
    (get_movie (add_movie initState movieA).2 "1").2.cache "1" = some movieA ∧
    (run (get_movie (add_movie initState movieA).2 "1").2
        [Op.storeOp movieB]).cache "1" = some movieA ∧
    get_movie (get_movie (add_movie initState movieA).2 "1").2 "1"
      = (Except.ok movieA, (get_movie (add_movie initState movieA).2 "1").2) :=
  ⟨rfl,
   (cache_entry_immutable (get_movie (add_movie initState movieA).2 "1").2
      "1" movieA rfl).1 [Op.storeOp movieB],
   (cache_entry_immutable (get_movie (add_movie initState movieA).2 "1").2
      "1" movieA rfl).2.1⟩

/-- C10: a fetch that misses the cache and hits the db returns the db value,
caches exactly that value under exactly the fetched key (all other cache
entries unchanged), and leaves the db untouched. -/
theorem fetch_miss_populates (s : AppState) (id : String) (m : Movie)
    (hc : s.cache id = none) (hd : s.db id = some m) :
    (get_movie s id).1 = Except.ok m ∧
    ((get_movie s id).2).cache id = some m ∧
    ((get_movie s id).2).db = s.db ∧
    ∀ k, k ≠ id → ((get_movie s id).2).cache k = s.cache k := by
  refine ⟨?_, ?_, get_movie_db s id, ?_⟩
  · simp [get_movie, hc, hd]
  · simp [get_movie, hc, hd, mapInsert]
  · intro k hk
    simp [get_movie, hc, hd, mapInsert, hk]

/-- Witness for C10: fetching "1" after storing Dune populates the cache with
Dune under "1" and leaves key "2" uncached. -/
theorem fetch_miss_populates_witness :
    (add_movie initState movieA).2.cache "1" = none ∧
    (add_movie initState movieA).2.db "1" = some movieA ∧
    (get_movie (add_movie initState movieA).2 "1").1 = Except.ok movieA ∧
    (get_movie (add_movie initState movieA).2 "1").2.cache "1" = some movieA ∧
    (get_movie (add_movie initState movieA).2 "1").2.cache "2"
      = (add_movie initState movieA).2.cache "2" :=
  ⟨rfl, rfl,
   (fetch_miss_populates (add_movie initState movieA).2 "1" movieA rfl rfl).1,
   (fetch_miss_populates (add_movie initState movieA).2 "1" movieA rfl rfl).2.1,
   (fetch_miss_populates (add_movie initState movieA).2 "1" movieA rfl rfl).2.2.2
     "2" (by decide)⟩

/-- C2 counterexample: on the state reached by storing Dune, fetching "1"
misses the cache, hits the db, and its trace holds Store's read lock and
Cache's write lock simultaneously — the source binds the db read guard for
the rest of the function (line 37), so it is still held when the cache write
guard is acquired (line 41).  This refutes the claim that the two locks are
never held at the same time. -/
theorem locks_nested_counterexample :
    neverBothHeld (getMovieTrace (add_movie initState movieA).2 "1") = false := by
  decide

/-- C2 (amended): on the cache-miss-then-db-hit path the handler acquires
Cache's write lock while Store's read lock is still held, so on that path the
two locks ARE nested (on every other path they are disjoint).  The nesting is
one-directional: no Store lock is ever acquired while a Cache lock is held,
and the write handler never touches Cache's lock at all, so the acquisition
order is globally consistent (Store before Cache) and no lock-ordering cycle
between the two locks can form. -/
theorem lock_discipline (s : AppState) (movie_id : String) (m : Movie) :
    dbNeverAcquiredUnderCache (getMovieTrace s movie_id) (false, false) = true ∧
    (addMovieTrace m).all (fun e => !(touchesCacheLock e)) = true ∧
    (match s.cache movie_id, s.db movie_id with
     | none, some _ => neverBothHeld (getMovieTrace s movie_id) = false
     | _, _ => neverBothHeld (getMovieTrace s movie_id) = true) := by
  refine ⟨?_, rfl, ?_⟩
  · cases hc : s.cache movie_id with
    | some v =>
      have ht : getMovieTrace s movie_id
          = [Event.lockCacheRead, Event.cacheGet movie_id,
             Event.unlockCacheRead] := by
        simp [getMovieTrace, hc]
      rw [ht]; rfl
    | none =>
      cases hd : s.db movie_id with
      | some movie =>
        have ht : getMovieTrace s movie_id
            = [Event.lockCacheRead, Event.cacheGet movie_id,
               Event.unlockCacheRead, Event.lockDbRead, Event.dbGet movie_id,
               Event.lockCacheWrite, Event.cacheInsert movie_id,
               Event.unlockCacheWrite, Event.unlockDbRead] := by
          simp [getMovieTrace, hc, hd]
        rw [ht]; rfl
      | none =>
        have ht : getMovieTrace s movie_id
            = [Event.lockCacheRead, Event.cacheGet movie_id,
               Event.unlockCacheRead, Event.lockDbRead, Event.dbGet movie_id,
               Event.unlockDbRead] := by
          simp [getMovieTrace, hc, hd]
        rw [ht]; rfl
  · cases hc : s.cache movie_id with
    | some v =>
      have ht : getMovieTrace s movie_id
          = [Event.lockCacheRead, Event.cacheGet movie_id,
             Event.unlockCacheRead] := by
        simp [getMovieTrace, hc]
      rw [ht]; rfl
    | none =>
      cases hd : s.db movie_id with
      | some movie =>
        have ht : getMovieTrace s movie_id
            = [Event.lockCacheRead, Event.cacheGet movie_id,
               Event.unlockCacheRead, Event.lockDbRead, Event.dbGet movie_id,
               Event.lockCacheWrite, Event.cacheInsert movie_id,
               Event.unlockCacheWrite, Event.unlockDbRead] := by
          simp [getMovieTrace, hc, hd]
        rw [ht]; rfl
      | none =>
        have ht : getMovieTrace s movie_id
            = [Event.lockCacheRead, Event.cacheGet movie_id,
               Event.unlockCacheRead, Event.lockDbRead, Event.dbGet movie_id,
               Event.unlockDbRead] := by
          simp [getMovieTrace, hc, hd]
        rw [ht]; rfl

end MovieService
